import Mathlib

/-!
Verification of the Nuclide datatip (hover tooltip) subsystem.

The development shallowly embeds `DatatipManager.js`: the pure fetch
orchestrator (`fetchDatatip` and its helpers), the per-editor hover state
machine `DatatipManagerForEditor` (as an explicit state record plus a
transition function driven by the host events that the source subscribes to),
and the `DatatipManager` registry's pinned-tip creation.  Host collaborators
(Atom's `Point`/`Range` value classes, the editor view's pixel geometry, the
decoration marker API) are embedded by their documented value semantics; a
mouse event is represented by the buffer position the position resolver
extracts from it.
-/

namespace NuclideDatatip

/-- Buffer position, embedding Atom's `Point` value class (row/column pairs
compared lexicographically). -/
structure Point where
  row : Int
  column : Int
deriving Repr, DecidableEq

/-- Atom `Point.isLessThanOrEqual`: lexicographic order on (row, column). -/
def Point.le (p q : Point) : Bool :=
  decide (p.row < q.row) || (decide (p.row = q.row) && decide (p.column ≤ q.column))

/-- Atom `Point.isLessThan`: strict lexicographic order on (row, column). -/
def Point.lt (p q : Point) : Bool :=
  decide (p.row < q.row) || (decide (p.row = q.row) && decide (p.column < q.column))

/-- Buffer range, embedding Atom's `Range` value class; `stop` embeds the
source field named `end` (a Lean keyword). -/
structure Range where
  start : Point
  stop : Point
deriving Repr, DecidableEq

/-- Atom `Range.union`: the range from the earlier start to the later end. -/
def Range.union (r other : Range) : Range :=
  { start := if Point.lt r.start other.start then r.start else other.start,
    stop := if Point.lt other.stop r.stop then r.stop else other.stop }

/-- Atom `Range.containsPoint` (inclusive, the default non-exclusive form). -/
def Range.containsPoint (r : Range) (p : Point) : Bool :=
  Point.le r.start p && Point.le p r.stop

/-- Atom `Range.containsRange`: the outer range covers the inner one. -/
def Range.containsRange (outer inner : Range) : Bool :=
  Point.le outer.start inner.start && Point.le inner.stop outer.stop

/-- Result of one provider call, embedding the `Datatip` payload
(`{range, component, pinnable}`); the rendered React component is external
and carries no logic, so only its presence is kept. -/
structure Datatip where
  range : Range
  pinnable : Option Bool
deriving Repr, DecidableEq

/-- Hover-content provider.  `datatip` embeds the (awaited) result of the
asynchronous `provider.datatip(editor, position)` call as a function of the
queried position. -/
structure DatatipProvider where
  providerName : Option String
  inclusionPriority : Int
  validForScope : String → Bool
  datatip : Point → Option Datatip

/-- Source `getProviderName`: fall back to "unknown" when a provider has no
name (the logger call is a host side effect with no state). -/
def getProviderName (provider : DatatipProvider) : String :=
  match provider.providerName with
  | none => "unknown"
  | some name => name

/-- Stable ascending insertion of a provider into a priority-sorted list;
together with `sortByPriority` this embeds the JS `Array.prototype.sort`
call with comparator `a.inclusionPriority - b.inclusionPriority`. -/
def insertByPriority (p : DatatipProvider) :
    List DatatipProvider → List DatatipProvider
  | [] => [p]
  | q :: qs =>
    if q.inclusionPriority ≤ p.inclusionPriority then q :: insertByPriority p qs
    else p :: q :: qs

/-- Stable sort of providers by ascending `inclusionPriority`. -/
def sortByPriority : List DatatipProvider → List DatatipProvider
  | [] => []
  | p :: ps => insertByPriority p (sortByPriority ps)

/-- Source `filterProvidersByScopeName`: keep providers with positive
priority that are valid for the scope, sorted ascending by priority. -/
def filterProvidersByScopeName (providers : List DatatipProvider)
    (scopeName : String) : List DatatipProvider :=
  sortByPriority (providers.filter fun provider =>
    decide (provider.inclusionPriority > 0) && provider.validForScope scopeName)

/-- Combined fetch result (`{range, renderedProviders}`); the rendered
`<div>` of provider components is kept as the list of provider names in
render order. -/
structure CombinedResult where
  range : Option Range
  renderedProviders : List String
deriving Repr, DecidableEq

/-- One step of the `combinedRange` accumulation in `fetchDatatip`: the first
provider result initialises the range, later ones are unioned in. -/
def unionStep (combined : Option Range) (r : Range) : Option Range :=
  match combined with
  | none => some r
  | some u => some (Range.union u r)

/-- Body of the per-provider async closure inside `fetchDatatip`: a provider
returning no datatip contributes nothing; one returning content contributes
its rendered component (kept as the provider name) and its range.  The
per-provider analytics `track` call is a host side effect with no state. -/
def fetchItem (position : Point) (provider : DatatipProvider) :
    Option (String × Range) :=
  match provider.datatip position with
  | none => none
  | some datatip => some (getProviderName provider, datatip.range)

/-- Source `fetchDatatip`: filter and sort the providers for the grammar
scope, resolve with null when none apply, query each provider at the
position, drop providers without content, union the returned ranges into
`combinedRange`, and resolve with null when no provider returned content. -/
def fetchDatatip (scopeName : String) (position : Point)
    (allProviders : List DatatipProvider) : Option CombinedResult :=
  let providers := filterProvidersByScopeName allProviders scopeName
  if providers.length = 0 then
    none
  else
    let results := providers.filterMap (fetchItem position)
    let combinedRange := results.foldl (fun combined pr => unionStep combined pr.2) none
    if results.length = 0 then
      none
    else
      some { range := combinedRange, renderedProviders := results.map Prod.fst }

/-- Mouse event as the state machine observes it.  The source
`getBufferPosition` converts the event through the host view's pixel
geometry (`screenPositionForMouseEvent`, `pixelPositionForMouseEvent`) and
rejects pointers left of the text or past the line end; that geometry lives
in the host editor, so an event is embedded by the buffer position this
resolution yields (`none` when the pointer is not over real text or the
view has no component). -/
structure MEvent where
  resolved : Option Point
deriving Repr, DecidableEq

/-- Source `getBufferPosition` on the stored `?MouseEvent`: null event (or a
rejected pixel position) resolves to null. -/
def getBufferPosition (event : Option MEvent) : Option Point :=
  match event with
  | none => none
  | some e => e.resolved

/-- Source `DatatipState` enum. -/
inductive DatatipState where
  | HIDDEN
  | FETCHING
  | VISIBLE
deriving Repr, DecidableEq

/-- Which `getPosition` closure a fetch was started with: the debounced
mouse path reads `_lastMoveEvent`, the toggle path reads the editor's
cursor position. -/
inductive FetchOrigin where
  | mouse
  | cursor
deriving Repr, DecidableEq

/-- One in-flight `fetchDatatip` call: the position it was started at and
which `getPosition` closure its completion re-invokes. -/
structure FetchInfo where
  pos : Point
  origin : FetchOrigin
deriving Repr, DecidableEq

/-- Fields of a `DatatipManagerForEditor` instance, plus bookkeeping for the
host resources it owns: `liveMarkers` counts decoration markers created and
not yet destroyed, `debouncePending` models the pending timer inside the
debounced `_startFetchingDebounce` closure, `pending` the in-flight fetches
whose promise has not resolved, and `subscribed` whether
`_subscriptions` is still live (event subscriptions deliver only while it
is). -/
structure EditorState where
  datatipState : DatatipState
  blacklistedPosition : Option Point
  marker : Option Range
  liveMarkers : Nat
  range : Option Range
  lastMoveEvent : Option MEvent
  lastHiddenTime : Int
  insideDatatip : Bool
  debouncePending : Bool
  pending : List FetchInfo
  subscribed : Bool
  disposed : Bool
deriving Repr, DecidableEq

/-- Per-instance constants: the editor grammar's scope name and the shared
provider list the manager was constructed with. -/
structure DatatipConfig where
  scopeName : String
  providers : List DatatipProvider

/-- Constructor state of `DatatipManagerForEditor`: state HIDDEN, no
blacklist, no marker, `_lastHiddenTime = 0`, subscriptions installed. -/
def initState : EditorState :=
  { datatipState := DatatipState.HIDDEN, blacklistedPosition := none,
    marker := none, liveMarkers := 0, range := none, lastMoveEvent := none,
    lastHiddenTime := 0, insideDatatip := false, debouncePending := false,
    pending := [], subscribed := true, disposed := false }

/-- Source `_hideDatatip`: record the hide time, destroy the marker if one
exists, clear `_range`, unmount and hide the overlay element. -/
def hideDatatip (now : Int) (s : EditorState) : EditorState :=
  let s1 := { s with lastHiddenTime := now }
  let s2 := match s1.marker with
    | some _ => { s1 with marker := none, liveMarkers := s1.liveMarkers - 1 }
    | none => s1
  { s2 with range := none }

/-- Source `_setState`: store the new state, clear the blacklisted position
whenever the new state is HIDDEN, and run `_hideDatatip` on a VISIBLE to
HIDDEN transition. -/
def setState (now : Int) (s : EditorState) (newState : DatatipState) : EditorState :=
  let oldState := s.datatipState
  let s1 := { s with datatipState := newState }
  let s2 := if newState = DatatipState.HIDDEN
    then { s1 with blacklistedPosition := none } else s1
  if oldState = DatatipState.VISIBLE ∧ newState = DatatipState.HIDDEN
  then hideDatatip now s2 else s2

/-- Synchronous prefix of source `_startFetching`, up to the `await` of
`fetchDatatip`: bail unless the state is HIDDEN, bail when `getPosition()`
resolves to null, otherwise enter FETCHING and leave the fetch in flight. -/
def startFetchingBegin (now : Int) (s : EditorState) (getPos : Option Point)
    (origin : FetchOrigin) : EditorState :=
  if s.datatipState ≠ DatatipState.HIDDEN then s
  else
    match getPos with
    | none => s
    | some position =>
      let s1 := setState now s DatatipState.FETCHING
      { s1 with pending := s1.pending ++ [{ pos := position, origin := origin }] }

/-- JS truthiness of `this._blacklistedPosition && data.range &&
data.range.containsPoint(this._blacklistedPosition)`. -/
def blacklistContains (blacklisted : Option Point) (range : Option Range) : Bool :=
  match blacklisted, range with
  | some bp, some r => Range.containsPoint r bp
  | _, _ => false

/-- JS truthiness of `currentPosition && data.range &&
data.range.containsPoint(currentPosition)` (the negated guard at the end of
`_startFetching`). -/
def rangeContainsOpt (range : Option Range) (currentPosition : Option Point) : Bool :=
  match range, currentPosition with
  | some r, some cp => Range.containsPoint r cp
  | _, _ => false

/-- Re-invocation of the `getPosition` closure at fetch completion: the
mouse-path closure reads the current `_lastMoveEvent`, the toggle-path
closure reads the current cursor position (a host input at that instant). -/
def completionPosition (origin : FetchOrigin) (s : EditorState)
    (cursorNow : Point) : Option Point :=
  match origin with
  | FetchOrigin.mouse => getBufferPosition s.lastMoveEvent
  | FetchOrigin.cursor => some cursorNow

/-- Blacklist and pointer checks at the end of source `_startFetching`: a
combined range containing the blacklisted position hides; a pointer no
longer inside the combined range hides; otherwise the state becomes
VISIBLE, `_range` is stored and `renderDatatip` creates the marker over
`data.range` (hence `liveMarkers` grows by one). -/
def fetchCompleteChecks (now : Int) (s1 : EditorState) (data : CombinedResult)
    (f : FetchInfo) (cursorNow : Point) : EditorState :=
  if blacklistContains s1.blacklistedPosition data.range then
    setState now s1 DatatipState.HIDDEN
  else if rangeContainsOpt data.range (completionPosition f.origin s1 cursorNow) then
    let s2 := setState now s1 DatatipState.VISIBLE
    { s2 with range := data.range, marker := data.range,
              liveMarkers := s2.liveMarkers + 1 }
  else
    setState now s1 DatatipState.HIDDEN

/-- Continuation of source `_startFetching` after `await fetchDatatip`
(entry point): null data hides; a stale state (no longer FETCHING) runs
`_setState(HIDDEN)` but — exactly as in the source — does not return, so
execution continues into `fetchCompleteChecks`. -/
def fetchCompleteStep (cfg : DatatipConfig) (now : Int) (s : EditorState)
    (f : FetchInfo) (cursorNow : Point) : EditorState :=
  match fetchDatatip cfg.scopeName f.pos cfg.providers with
  | none => setState now s DatatipState.HIDDEN
  | some data =>
    fetchCompleteChecks now
      (if s.datatipState ≠ DatatipState.FETCHING
       then setState now s DatatipState.HIDDEN else s)
      data f cursorNow

/-- Source `_hideOrCancel`: while HIDDEN or FETCHING, record the buffer
position of the last move event as the blacklisted position; otherwise
(VISIBLE) hide. -/
def hideOrCancel (now : Int) (s : EditorState) : EditorState :=
  if s.datatipState = DatatipState.HIDDEN ∨ s.datatipState = DatatipState.FETCHING then
    { s with blacklistedPosition := getBufferPosition s.lastMoveEvent }
  else
    setState now s DatatipState.HIDDEN

/-- Source `_hideIfOutside`: only acts while VISIBLE, keeps the tip when the
pointer is inside the tip element or still within `_range`, hides
otherwise. -/
def hideIfOutside (now : Int) (s : EditorState) : EditorState :=
  if s.datatipState ≠ DatatipState.VISIBLE then s
  else if s.insideDatatip then s
  else if rangeContainsOpt s.range (getBufferPosition s.lastMoveEvent) then s
  else setState now s DatatipState.HIDDEN

/-- Source `_toggleDatatip`: a no-op unless this editor is active; while
HIDDEN and more than 100ms after the last hide, start a fetch at the
current cursor position. -/
def toggleDatatip (now : Int) (s : EditorState) (isActiveEditor : Bool)
    (cursorPosition : Point) : EditorState :=
  if isActiveEditor = false then s
  else if s.datatipState = DatatipState.HIDDEN ∧ now - s.lastHiddenTime > 100 then
    startFetchingBegin now s (some cursorPosition) FetchOrigin.cursor
  else s

/-- Source `dispose`: `_setState(HIDDEN)`, then dispose the subscriptions
and remove the overlay element.  Nothing here clears the debounce timer or
the in-flight fetches. -/
def disposeFn (now : Int) (s : EditorState) : EditorState :=
  let s1 := setState now s DatatipState.HIDDEN
  { s1 with subscribed := false, disposed := true }

/-- Host events driving one `DatatipManagerForEditor`, one constructor per
subscription in the source plus the two asynchronous callbacks (debounce
timer expiry and fetch promise resolution) and disposal.
`fetchComplete i cursorNow` resolves the i-th in-flight fetch with the
cursor sitting at `cursorNow`. -/
inductive Event where
  | mousemove (e : MEvent)
  | mousedown (targetInDatatip : Bool)
  | keydown (altKey ctrlKey metaKey shiftKey : Bool)
  | mouseenter
  | mouseleave
  | scroll
  | toggle (isActiveEditor : Bool) (cursorPosition : Point)
  | debounceFire
  | fetchComplete (i : Nat) (cursorNow : Point)
  | dispose
deriving Repr, DecidableEq

/-- Events delivered through `_subscriptions` (they stop firing once the
subscriptions are disposed); the debounce timer and fetch promises are not
subscriptions and outlive disposal. -/
def Event.isSubscriptionEvent : Event → Bool
  | Event.mousemove _ => true
  | Event.mousedown _ => true
  | Event.keydown _ _ _ _ => true
  | Event.mouseenter => true
  | Event.mouseleave => true
  | Event.scroll => true
  | Event.toggle _ _ => true
  | Event.debounceFire => false
  | Event.fetchComplete _ _ => false
  | Event.dispose => false

/-- Modelled from the spec: `commons-node/debounce` is not under src.  Per
the spec, continuous pointer movement resets a timer and only the final
idle position starts a fetch; `debouncePending` is that timer's pending
flag, set (or reset) by each qualifying `mousemove`, consumed when the
timer fires, and cancelled by nothing else. -/
def debounceReset (s : EditorState) : EditorState :=
  { s with debouncePending := true }

/-- One transition of the hover state machine on a host event, combining
the source's subscription handlers with the asynchronous callbacks. -/
def step (cfg : DatatipConfig) (now : Int) (s : EditorState) (ev : Event) : EditorState :=
  match ev with
  | Event.mousemove e =>
    if s.subscribed = false then s
    else if s.datatipState = DatatipState.HIDDEN then
      debounceReset { s with lastMoveEvent := some e }
    else hideIfOutside now { s with lastMoveEvent := some e }
  | Event.mousedown targetInDatatip =>
    if s.subscribed = false then s
    else if targetInDatatip then s
    else hideOrCancel now s
  | Event.keydown altKey ctrlKey metaKey shiftKey =>
    if s.subscribed = false then s
    else if altKey || ctrlKey || metaKey || shiftKey then s
    else hideOrCancel now s
  | Event.mouseenter =>
    if s.subscribed = false then s
    else hideIfOutside now { s with insideDatatip := true }
  | Event.mouseleave =>
    if s.subscribed = false then s
    else hideIfOutside now { s with insideDatatip := false }
  | Event.scroll =>
    if s.subscribed = false then s
    else if s.datatipState = DatatipState.VISIBLE then
      setState now { s with lastMoveEvent := none } DatatipState.HIDDEN
    else { s with lastMoveEvent := none }
  | Event.toggle isActiveEditor cursorPosition =>
    if s.subscribed = false then s
    else toggleDatatip now s isActiveEditor cursorPosition
  | Event.debounceFire =>
    if s.debouncePending = false then s
    else
      startFetchingBegin now { s with debouncePending := false }
        (getBufferPosition s.lastMoveEvent) FetchOrigin.mouse
  | Event.fetchComplete i cursorNow =>
    match s.pending.get? i with
    | none => s
    | some f => fetchCompleteStep cfg now { s with pending := s.pending.eraseIdx i } f cursorNow
  | Event.dispose => disposeFn now s

/-- States of one manager instance reachable from construction under any
interleaving of host events. -/
inductive Reachable (cfg : DatatipConfig) : EditorState → Prop where
  | init : Reachable cfg initState
  | next {s : EditorState} (h : Reachable cfg s) (now : Int) (ev : Event) :
      Reachable cfg (step cfg now s ev)

/-- Marker bookkeeping invariant of one manager instance: the `_marker`
field holds a marker exactly while the state is VISIBLE, and the number of
live (created and not destroyed) markers is one while VISIBLE and zero
otherwise. -/
def Inv (s : EditorState) : Prop :=
  (s.marker.isSome = true ↔ s.datatipState = DatatipState.VISIBLE) ∧
  s.liveMarkers = (if s.datatipState = DatatipState.VISIBLE then 1 else 0)

/-- Modelled from the spec: the `PinnedDatatip` class (`./PinnedDatatip`)
is not under src.  Per the spec's PinnedTooltip data model it carries the
pinned content's anchor range and pinnable flag; its own decoration and
dismiss handling are internal to it. -/
structure PinnedDatatip where
  range : Range
  pinnable : Option Bool
deriving Repr, DecidableEq

/-- Source `DatatipManagerForEditor.createPinnedDataTip`: construct a new
`PinnedDatatip` from the given component, range and pinnable flag (the
`onDispose` callback only unregisters the tip from the per-editor set). -/
def DatatipManagerForEditor.createPinnedDataTip (range : Range)
    (pinnable : Option Bool) : PinnedDatatip :=
  { range := range, pinnable := pinnable }

/-- Source `DatatipManager` registry state: the `_editorManagers` map from
open editors (keyed by an editor id) to their `DatatipManagerForEditor`
instances. -/
structure DatatipManager where
  editorManagers : List (Nat × EditorState)

/-- Source `DatatipManager.createPinnedDataTip`: look up the manager for
the editor, throw the "no datatip manager" error when the editor is not
tracked, otherwise delegate to the per-editor instance. -/
def DatatipManager.createPinnedDataTip (m : DatatipManager) (range : Range)
    (pinnable : Option Bool) (editor : Nat) : Except String PinnedDatatip :=
  match m.editorManagers.lookup editor with
  | none => Except.error
      "Trying to create a pinned data tip on an editor that has no datatip manager"
  | some _ => Except.ok (DatatipManagerForEditor.createPinnedDataTip range pinnable)

/-- Provider used by concrete scenarios: always valid, priority 1, always
returns a datatip spanning (0,0)-(0,5). -/
def sampleProvider : DatatipProvider :=
  { providerName := some "sample-provider", inclusionPriority := 1,
    validForScope := fun _ => true,
    datatip := fun _ => some
      { range := { start := { row := 0, column := 0 },
                   stop := { row := 0, column := 5 } }, pinnable := none } }

/-- Configuration used by concrete scenarios. -/
def sampleCfg : DatatipConfig :=
  { scopeName := "source.js", providers := [sampleProvider] }

/-- Provider returning range (5,0)-(5,3), priority 1. -/
def witProviderA : DatatipProvider :=
  { providerName := some "a", inclusionPriority := 1,
    validForScope := fun _ => true,
    datatip := fun _ => some
      { range := { start := { row := 5, column := 0 },
                   stop := { row := 5, column := 3 } }, pinnable := none } }

/-- Provider returning range (5,2)-(5,10), priority 2. -/
def witProviderB : DatatipProvider :=
  { providerName := some "b", inclusionPriority := 2,
    validForScope := fun _ => true,
    datatip := fun _ => some
      { range := { start := { row := 5, column := 2 },
                   stop := { row := 5, column := 10 } }, pinnable := none } }

/-- Provider that is never valid for any scope. -/
def offScopeProvider : DatatipProvider :=
  { providerName := some "off-scope", inclusionPriority := 1,
    validForScope := fun _ => false, datatip := fun _ => none }

/-- Configuration in which no provider matches the scope. -/
def offScopeCfg : DatatipConfig :=
  { scopeName := "source.js", providers := [offScopeProvider] }

/-- Registry tracking one editor (id 1). -/
def sampleManager : DatatipManager :=
  { editorManagers := [(1, initState)] }

/-- Scenario for the stale-completion behaviour: the toggle command starts
a fetch at cursor (0,2) at t=200 (more than 100ms after construction). -/
def c1Trace1 : EditorState :=
  step sampleCfg 200 initState
    (Event.toggle true { row := 0, column := 2 })

/-- The instance is disposed while the fetch is still in flight. -/
def c1Trace2 : EditorState := step sampleCfg 210 c1Trace1 Event.dispose

/-- The in-flight fetch then resolves, with the cursor still at (0,2). -/
def c1Trace3 : EditorState :=
  step sampleCfg 220 c1Trace2 (Event.fetchComplete 0 { row := 0, column := 2 })

/-- Scenario for disposal: a mousemove over text arms the debounce timer. -/
def c5Trace1 : EditorState :=
  step sampleCfg 0 initState
    (Event.mousemove { resolved := some { row := 0, column := 2 } })

/-- The instance is disposed while the debounce timer is pending. -/
def c5Trace2 : EditorState := step sampleCfg 1 c5Trace1 Event.dispose

/-- The debounce timer then fires after disposal. -/
def c5Trace3 : EditorState := step sampleCfg 2 c5Trace2 Event.debounceFire

/-- State used by concrete scenarios: a fetch in flight and position (0,3)
blacklisted by an intervening dismiss. -/
def fetchingBlacklistedState : EditorState :=
  { initState with
    datatipState := DatatipState.FETCHING,
    blacklistedPosition := some { row := 0, column := 3 } }

/-- State used by concrete scenarios: the pointer last moved over buffer
position (1,2). -/
def movedState : EditorState :=
  { initState with
    lastMoveEvent := some { resolved := some { row := 1, column := 2 } } }

theorem Point.le_iff {p q : Point} :
    Point.le p q = true ↔ (p.row < q.row ∨ (p.row = q.row ∧ p.column ≤ q.column)) := by
  simp [Point.le]

theorem Point.lt_iff {p q : Point} :
    Point.lt p q = true ↔ (p.row < q.row ∨ (p.row = q.row ∧ p.column < q.column)) := by
  simp [Point.lt]

theorem Point.le_refl (p : Point) : Point.le p p = true := by
  simp [Point.le_iff]

theorem Point.le_trans {p q r : Point} (h1 : Point.le p q = true)
    (h2 : Point.le q r = true) : Point.le p r = true := by
  rw [Point.le_iff] at *
  omega

theorem Point.not_lt {p q : Point} (h : Point.lt p q = false) : Point.le q p = true := by
  rw [Point.le_iff]
  rw [← Bool.not_eq_true, Point.lt_iff] at h
  omega

theorem Point.lt_le {p q : Point} (h : Point.lt p q = true) : Point.le p q = true := by
  rw [Point.lt_iff] at h
  rw [Point.le_iff]
  omega

theorem Range.containsRange_refl (r : Range) : Range.containsRange r r = true := by
  simp [Range.containsRange, Point.le_refl]

theorem Range.containsRange_trans {a b c : Range}
    (h1 : Range.containsRange a b = true) (h2 : Range.containsRange b c = true) :
    Range.containsRange a c = true := by
  simp only [Range.containsRange, Bool.and_eq_true] at *
  exact ⟨Point.le_trans h1.1 h2.1, Point.le_trans h2.2 h1.2⟩

theorem Range.union_containsRange_left (a b : Range) :
    Range.containsRange (Range.union a b) a = true := by
  simp only [Range.containsRange, Range.union, Bool.and_eq_true]
  constructor
  · by_cases h : Point.lt a.start b.start = true
    · simp [h, Point.le_refl]
    · simp only [Bool.not_eq_true] at h
      simp [h, Point.not_lt h]
  · by_cases h : Point.lt b.stop a.stop = true
    · simp [h, Point.le_refl]
    · simp only [Bool.not_eq_true] at h
      simp [h, Point.not_lt h]

theorem Range.union_containsRange_right (a b : Range) :
    Range.containsRange (Range.union a b) b = true := by
  simp only [Range.containsRange, Range.union, Bool.and_eq_true]
  constructor
  · by_cases h : Point.lt a.start b.start = true
    · simp [h, Point.lt_le h]
    · simp only [Bool.not_eq_true] at h
      simp [h, Point.le_refl]
  · by_cases h : Point.lt b.stop a.stop = true
    · simp [h, Point.lt_le h]
    · simp only [Bool.not_eq_true] at h
      simp [h, Point.le_refl]

theorem Range.containsRange_union {v a b : Range}
    (ha : Range.containsRange v a = true) (hb : Range.containsRange v b = true) :
    Range.containsRange v (Range.union a b) = true := by
  simp only [Range.containsRange, Range.union, Bool.and_eq_true] at *
  constructor
  · by_cases h : Point.lt a.start b.start = true
    · simp [h, ha.1]
    · simp [h, hb.1]
  · by_cases h : Point.lt b.stop a.stop = true
    · simp [h, ha.2]
    · simp [h, hb.2]

theorem unionStep_foldl (rs : List Range) (u0 : Range) :
    ∃ u, List.foldl unionStep (some u0) rs = some u ∧
      Range.containsRange u u0 = true ∧
      (∀ r ∈ rs, Range.containsRange u r = true) ∧
      (∀ v : Range, Range.containsRange v u0 = true →
        (∀ r ∈ rs, Range.containsRange v r = true) → Range.containsRange v u = true) := by
  induction rs generalizing u0 with
  | nil =>
    exact ⟨u0, rfl, Range.containsRange_refl u0, by simp, fun v hv _ => hv⟩
  | cons r rs ih =>
    obtain ⟨u, hfold, hu0, hall, hmin⟩ := ih (Range.union u0 r)
    refine ⟨u, ?_, ?_, ?_, ?_⟩
    · simpa [unionStep] using hfold
    · exact Range.containsRange_trans hu0 (Range.union_containsRange_left u0 r)
    · intro r' hr'
      rcases List.mem_cons.mp hr' with h | h
      · exact h ▸ Range.containsRange_trans hu0 (Range.union_containsRange_right u0 r)
      · exact hall r' h
    · intro v hv hvall
      refine hmin v (Range.containsRange_union hv (hvall r (List.mem_cons_self r rs))) ?_
      intro r' hr'
      exact hvall r' (List.mem_cons_of_mem r hr')

theorem inv_initState : Inv initState := by
  constructor <;> simp [initState]

theorem marker_none_of_inv {s : EditorState} (h : Inv s)
    (hv : s.datatipState ≠ DatatipState.VISIBLE) : s.marker = none := by
  cases hm : s.marker with
  | none => rfl
  | some r => exact absurd (h.1.mp (by simp [hm])) hv

theorem setState_hidden_spec (now : Int) {s : EditorState} (h : Inv s) :
    (setState now s DatatipState.HIDDEN).datatipState = DatatipState.HIDDEN ∧
    (setState now s DatatipState.HIDDEN).blacklistedPosition = none ∧
    (setState now s DatatipState.HIDDEN).marker = none ∧
    (setState now s DatatipState.HIDDEN).liveMarkers = 0 ∧
    (setState now s DatatipState.HIDDEN).lastMoveEvent = s.lastMoveEvent ∧
    (setState now s DatatipState.HIDDEN).insideDatatip = s.insideDatatip ∧
    (setState now s DatatipState.HIDDEN).debouncePending = s.debouncePending ∧
    (setState now s DatatipState.HIDDEN).pending = s.pending ∧
    (setState now s DatatipState.HIDDEN).subscribed = s.subscribed ∧
    (setState now s DatatipState.HIDDEN).disposed = s.disposed := by
  by_cases hv : s.datatipState = DatatipState.VISIBLE
  · obtain ⟨r, hr⟩ := Option.isSome_iff_exists.mp (h.1.mpr hv)
    have hl : s.liveMarkers = 1 := by rw [h.2, if_pos hv]
    simp [setState, hideDatatip, hv, hr, hl]
  · have hm := marker_none_of_inv h hv
    have hl : s.liveMarkers = 0 := by rw [h.2, if_neg hv]
    simp [setState, hideDatatip, hv, hm, hl]

theorem inv_setState_hidden (now : Int) {s : EditorState} (h : Inv s) :
    Inv (setState now s DatatipState.HIDDEN) := by
  obtain ⟨h1, h2, h3, h4, h5⟩ := setState_hidden_spec now h
  exact ⟨by simp [h3, h1], by simp [h4, h1]⟩

theorem setState_fetching_of_hidden (now : Int) {s : EditorState}
    (h : s.datatipState = DatatipState.HIDDEN) :
    setState now s DatatipState.FETCHING =
      { s with datatipState := DatatipState.FETCHING } := by
  simp [setState, h]

theorem setState_visible_of_not_visible (now : Int) {s : EditorState}
    (h : s.datatipState ≠ DatatipState.VISIBLE) :
    setState now s DatatipState.VISIBLE =
      { s with datatipState := DatatipState.VISIBLE } := by
  simp [setState, h]

theorem startFetchingBegin_of_hidden (now : Int) {s : EditorState}
    (h : s.datatipState = DatatipState.HIDDEN) (position : Point)
    (origin : FetchOrigin) :
    startFetchingBegin now s (some position) origin =
      { s with datatipState := DatatipState.FETCHING,
               pending := s.pending ++ [{ pos := position, origin := origin }] } := by
  simp [startFetchingBegin, setState, h]

theorem inv_startFetchingBegin (now : Int) {s : EditorState} (h : Inv s)
    (getPos : Option Point) (origin : FetchOrigin) :
    Inv (startFetchingBegin now s getPos origin) := by
  by_cases hh : s.datatipState = DatatipState.HIDDEN
  · cases getPos with
    | none => simpa [startFetchingBegin, hh] using h
    | some position =>
      rw [startFetchingBegin_of_hidden now hh position origin]
      have hm := marker_none_of_inv h (by rw [hh]; simp)
      have hl : s.liveMarkers = 0 := by rw [h.2, if_neg (by rw [hh]; simp)]
      exact ⟨by simp [hm], by simp [hl]⟩
  · simpa [startFetchingBegin, hh] using h

theorem inv_hideOrCancel (now : Int) {s : EditorState} (h : Inv s) :
    Inv (hideOrCancel now s) := by
  unfold hideOrCancel
  split
  · exact h
  · exact inv_setState_hidden now h

theorem inv_hideIfOutside (now : Int) {s : EditorState} (h : Inv s) :
    Inv (hideIfOutside now s) := by
  unfold hideIfOutside
  split
  · exact h
  · split
    · exact h
    · split
      · exact h
      · exact inv_setState_hidden now h

theorem inv_toggleDatatip (now : Int) {s : EditorState} (h : Inv s)
    (isActiveEditor : Bool) (cursorPosition : Point) :
    Inv (toggleDatatip now s isActiveEditor cursorPosition) := by
  unfold toggleDatatip
  split
  · exact h
  · split
    · exact inv_startFetchingBegin now h _ _
    · exact h

theorem inv_fetchCompleteChecks (now : Int) {s1 : EditorState} (h : Inv s1)
    (hnv : s1.datatipState ≠ DatatipState.VISIBLE) (data : CombinedResult)
    (f : FetchInfo) (cursorNow : Point) :
    Inv (fetchCompleteChecks now s1 data f cursorNow) := by
  unfold fetchCompleteChecks
  split
  · exact inv_setState_hidden now h
  · split
    · rename_i hok
      cases hro : data.range with
      | none => rw [hro] at hok; simp [rangeContainsOpt] at hok
      | some r =>
        rw [setState_visible_of_not_visible now hnv]
        have hl : s1.liveMarkers = 0 := by rw [h.2, if_neg hnv]
        exact ⟨by simp [hro], by simp [hl]⟩
    · exact inv_setState_hidden now h

theorem inv_fetchCompleteStep (cfg : DatatipConfig) (now : Int)
    {s : EditorState} (h : Inv s) (f : FetchInfo) (cursorNow : Point) :
    Inv (fetchCompleteStep cfg now s f cursorNow) := by
  unfold fetchCompleteStep
  cases fetchDatatip cfg.scopeName f.pos cfg.providers with
  | none => exact inv_setState_hidden now h
  | some data =>
    by_cases hf : s.datatipState = DatatipState.FETCHING
    · refine inv_fetchCompleteChecks now ?_ ?_ data f cursorNow
      · simpa [hf] using h
      · simp [hf]
    · refine inv_fetchCompleteChecks now ?_ ?_ data f cursorNow
      · simpa [hf] using inv_setState_hidden now h
      · simp [hf, (setState_hidden_spec now h).1]

theorem inv_disposeFn (now : Int) {s : EditorState} (h : Inv s) :
    Inv (disposeFn now s) := by
  have h2 := inv_setState_hidden now h
  unfold disposeFn
  exact ⟨h2.1, h2.2⟩

theorem inv_of_fields {s t : EditorState} (h : Inv s)
    (hm : t.marker = s.marker) (hd : t.datatipState = s.datatipState)
    (hl : t.liveMarkers = s.liveMarkers) : Inv t := by
  unfold Inv at h ⊢
  rw [hm, hd, hl]
  exact h

theorem inv_step (cfg : DatatipConfig) (now : Int) {s : EditorState}
    (h : Inv s) (ev : Event) : Inv (step cfg now s ev) := by
  cases ev with
  | mousemove e =>
    simp only [step]
    split
    · exact h
    · split
      · exact inv_of_fields h rfl rfl rfl
      · exact inv_hideIfOutside now (inv_of_fields h rfl rfl rfl)
  | mousedown targetInDatatip =>
    simp only [step]
    split
    · exact h
    · split
      · exact h
      · exact inv_hideOrCancel now h
  | keydown altKey ctrlKey metaKey shiftKey =>
    simp only [step]
    split
    · exact h
    · split
      · exact h
      · exact inv_hideOrCancel now h
  | mouseenter =>
    simp only [step]
    split
    · exact h
    · exact inv_hideIfOutside now (inv_of_fields h rfl rfl rfl)
  | mouseleave =>
    simp only [step]
    split
    · exact h
    · exact inv_hideIfOutside now (inv_of_fields h rfl rfl rfl)
  | scroll =>
    simp only [step]
    split
    · exact h
    · split
      · exact inv_setState_hidden now (inv_of_fields h rfl rfl rfl)
      · exact inv_of_fields h rfl rfl rfl
  | toggle isActiveEditor cursorPosition =>
    simp only [step]
    split
    · exact h
    · exact inv_toggleDatatip now h isActiveEditor cursorPosition
  | debounceFire =>
    simp only [step]
    split
    · exact h
    · refine inv_startFetchingBegin now ?_ _ _
      exact inv_of_fields h rfl rfl rfl
  | fetchComplete i cursorNow =>
    simp only [step]
    cases s.pending.get? i with
    | none => exact h
    | some f =>
      refine inv_fetchCompleteStep cfg now ?_ f cursorNow
      exact inv_of_fields h rfl rfl rfl
  | dispose =>
    simp only [step]
    exact inv_disposeFn now h

theorem reachable_inv {cfg : DatatipConfig} {s : EditorState}
    (h : Reachable cfg s) : Inv s := by
  induction h with
  | init => exact inv_initState
  | next h now ev ih => exact inv_step cfg now ih ev

theorem setState_datatipState (now : Int) (s : EditorState) (ns : DatatipState) :
    (setState now s ns).datatipState = ns := by
  by_cases h1 : ns = DatatipState.HIDDEN <;>
  by_cases h2 : s.datatipState = DatatipState.VISIBLE <;>
  cases hm : s.marker <;>
  simp [setState, hideDatatip, h1, h2, hm]

/-- C1: the claim states that a fetch completing after the state has moved
away from FETCHING is discarded and never produces a VISIBLE transition.
The source violates it: its stale-state guard runs `_setState(HIDDEN)`
without returning, so on this reachable trace — a toggle-initiated fetch,
an intervening `dispose()` (state back to HIDDEN), then the fetch
resolving while the cursor is still inside the combined range — the
completion handler transitions the disposed instance to VISIBLE and
creates a marker. -/
theorem stale_completion_reaches_visible :
    c1Trace1.datatipState = DatatipState.FETCHING ∧
    c1Trace2.datatipState = DatatipState.HIDDEN ∧
    c1Trace2.disposed = true ∧
    c1Trace2.pending =
      [{ pos := { row := 0, column := 2 }, origin := FetchOrigin.cursor }] ∧
    c1Trace3.datatipState = DatatipState.VISIBLE ∧
    c1Trace3.marker.isSome = true := by decide

/-- C2: while the blacklisted (suppressed) position is set, a fetch that
completes with a non-null combined result whose combined range contains
that position drives the state machine from FETCHING to HIDDEN and never
to VISIBLE. -/
theorem blacklisted_completion_hides (cfg : DatatipConfig) (now : Int)
    (s : EditorState) (f : FetchInfo) (cursorNow bp : Point)
    (data : CombinedResult) (r : Range)
    (hstate : s.datatipState = DatatipState.FETCHING)
    (hbp : s.blacklistedPosition = some bp)
    (hdata : fetchDatatip cfg.scopeName f.pos cfg.providers = some data)
    (hrange : data.range = some r)
    (hcontains : Range.containsPoint r bp = true) :
    (fetchCompleteStep cfg now s f cursorNow).datatipState = DatatipState.HIDDEN ∧
    (fetchCompleteStep cfg now s f cursorNow).datatipState ≠ DatatipState.VISIBLE := by
  have heq : fetchCompleteStep cfg now s f cursorNow =
      setState now s DatatipState.HIDDEN := by
    unfold fetchCompleteStep
    rw [hdata]
    simp [hstate, fetchCompleteChecks, blacklistContains, hbp, hrange, hcontains]
  rw [heq, setState_datatipState]
  exact ⟨rfl, by simp⟩

theorem blacklisted_completion_hides_witness :
    fetchingBlacklistedState.datatipState = DatatipState.FETCHING ∧
    fetchDatatip sampleCfg.scopeName ({ row := 0, column := 3 } : Point)
        sampleCfg.providers =
      some { range := some { start := { row := 0, column := 0 },
                             stop := { row := 0, column := 5 } },
             renderedProviders := ["sample-provider"] } ∧
    (fetchCompleteStep sampleCfg 7 fetchingBlacklistedState
      { pos := { row := 0, column := 3 }, origin := FetchOrigin.mouse }
      { row := 0, column := 0 }).datatipState = DatatipState.HIDDEN :=
  ⟨rfl, by decide,
   (blacklisted_completion_hides sampleCfg 7 fetchingBlacklistedState
     { pos := { row := 0, column := 3 }, origin := FetchOrigin.mouse }
     { row := 0, column := 0 } { row := 0, column := 3 }
     { range := some { start := { row := 0, column := 0 },
                       stop := { row := 0, column := 5 } },
       renderedProviders := ["sample-provider"] }
     { start := { row := 0, column := 0 }, stop := { row := 0, column := 5 } }
     rfl rfl (by decide) rfl (by decide)).1⟩

/-- C3: in every reachable state of a hover state machine instance, a
decoration marker is held exactly when the state is VISIBLE, at most one
live marker exists, and every transition out of VISIBLE into HIDDEN
destroys the existing marker (no live marker remains afterwards). -/
theorem marker_iff_visible (cfg : DatatipConfig) (s : EditorState)
    (h : Reachable cfg s) :
    (s.marker.isSome = true ↔ s.datatipState = DatatipState.VISIBLE) ∧
    s.liveMarkers ≤ 1 ∧
    (∀ (now : Int) (ev : Event), s.datatipState = DatatipState.VISIBLE →
      (step cfg now s ev).datatipState = DatatipState.HIDDEN →
      (step cfg now s ev).marker = none ∧ (step cfg now s ev).liveMarkers = 0) := by
  have hinv := reachable_inv h
  refine ⟨hinv.1, ?_, ?_⟩
  · rw [hinv.2]
    split <;> omega
  · intro now ev hv hh
    have hinv2 := reachable_inv (Reachable.next h now ev)
    refine ⟨marker_none_of_inv hinv2 (by rw [hh]; simp), ?_⟩
    rw [hinv2.2, if_neg (by rw [hh]; simp)]

theorem marker_iff_visible_witness :
    (initState.marker.isSome = true ↔
      initState.datatipState = DatatipState.VISIBLE) ∧
    initState.liveMarkers ≤ 1 :=
  ⟨(marker_iff_visible sampleCfg initState Reachable.init).1,
   (marker_iff_visible sampleCfg initState Reachable.init).2.1⟩

/-- C9: a keydown carrying any modifier key (alt, ctrl, meta or shift)
leaves the whole instance state — in particular state, marker and
blacklisted position — unchanged. -/
theorem modifier_keydown_noop (cfg : DatatipConfig) (now : Int)
    (s : EditorState) (altKey ctrlKey metaKey shiftKey : Bool)
    (h : (altKey || ctrlKey || metaKey || shiftKey) = true) :
    step cfg now s (Event.keydown altKey ctrlKey metaKey shiftKey) = s := by
  simp [step, h]

theorem modifier_keydown_noop_witness :
    (true || false || false || false) = true ∧
    step sampleCfg 0 initState (Event.keydown true false false false) = initState :=
  ⟨rfl, modifier_keydown_noop sampleCfg 0 initState true false false false rfl⟩

/-- C10: a dismiss trigger — a mousedown outside the tooltip element or a
modifier-free keydown — arriving while the state is HIDDEN records the
buffer position of the last pointer event as the blacklisted (suppressed)
position and leaves the state HIDDEN. -/
theorem dismiss_while_hidden_blacklists (cfg : DatatipConfig) (now : Int)
    (s : EditorState) (hsub : s.subscribed = true)
    (hh : s.datatipState = DatatipState.HIDDEN) :
    (step cfg now s (Event.mousedown false)).blacklistedPosition =
      getBufferPosition s.lastMoveEvent ∧
    (step cfg now s (Event.mousedown false)).datatipState = DatatipState.HIDDEN ∧
    (step cfg now s (Event.keydown false false false false)).blacklistedPosition =
      getBufferPosition s.lastMoveEvent ∧
    (step cfg now s (Event.keydown false false false false)).datatipState =
      DatatipState.HIDDEN := by
  have hmd : step cfg now s (Event.mousedown false) =
      { s with blacklistedPosition := getBufferPosition s.lastMoveEvent } := by
    simp only [step]
    rw [if_neg (by simp [hsub]), if_neg (by simp)]
    unfold hideOrCancel
    rw [if_pos (Or.inl hh)]
  have hkd : step cfg now s (Event.keydown false false false false) =
      { s with blacklistedPosition := getBufferPosition s.lastMoveEvent } := by
    simp only [step]
    rw [if_neg (by simp [hsub]), if_neg (by simp)]
    unfold hideOrCancel
    rw [if_pos (Or.inl hh)]
  rw [hmd, hkd]
  exact ⟨rfl, hh, rfl, hh⟩

theorem dismiss_while_hidden_blacklists_witness :
    movedState.subscribed = true ∧
    movedState.datatipState = DatatipState.HIDDEN ∧
    (step sampleCfg 0 movedState
      (Event.mousedown false)).blacklistedPosition =
      getBufferPosition movedState.lastMoveEvent ∧
    (step sampleCfg 0 movedState
      (Event.keydown false false false false)).datatipState =
      DatatipState.HIDDEN :=
  ⟨rfl, rfl,
   (dismiss_while_hidden_blacklists sampleCfg 0 movedState rfl rfl).1,
   (dismiss_while_hidden_blacklists sampleCfg 0 movedState rfl rfl).2.2.2⟩

theorem step_noop_of_unsubscribed (cfg : DatatipConfig) (now : Int)
    {d : EditorState} (hsub : d.subscribed = false) (ev : Event)
    (hev : ev.isSubscriptionEvent = true) : step cfg now d ev = d := by
  cases ev <;> simp_all [step, Event.isSubscriptionEvent]

/-- C5 counterexample: the claim states that disposal tears down the
pending debounce timer and that no further callbacks fire after disposal.
On this trace a mousemove arms the debounce timer, `dispose()` runs with
the timer still pending (`debouncePending` stays true), and the timer
callback then fires after disposal and starts a fetch on the disposed
instance. -/
theorem dispose_leaves_debounce_timer :
    c5Trace1.debouncePending = true ∧
    c5Trace2.disposed = true ∧
    c5Trace2.debouncePending = true ∧
    c5Trace3.datatipState = DatatipState.FETCHING ∧
    c5Trace3.pending ≠ [] := by decide

/-- C5 (amended): disposing a hover state machine instance synchronously
destroys any live marker, leaving none, and disposes all event
subscriptions, after which no subscription-delivered event changes the
instance; but disposal does not cancel the pending debounce timer and does
not discard in-flight fetches, whose callbacks can still fire afterwards. -/
theorem dispose_teardown (cfg : DatatipConfig) (now : Int) (s : EditorState)
    (h : Reachable cfg s) :
    (step cfg now s Event.dispose).marker = none ∧
    (step cfg now s Event.dispose).liveMarkers = 0 ∧
    (step cfg now s Event.dispose).subscribed = false ∧
    (step cfg now s Event.dispose).debouncePending = s.debouncePending ∧
    (step cfg now s Event.dispose).pending = s.pending ∧
    (∀ (now2 : Int) (ev : Event), ev.isSubscriptionEvent = true →
      step cfg now2 (step cfg now s Event.dispose) ev =
        step cfg now s Event.dispose) := by
  have hinv := reachable_inv h
  have hspec := setState_hidden_spec now hinv
  have hd : step cfg now s Event.dispose =
      { setState now s DatatipState.HIDDEN with
        subscribed := false, disposed := true } := by
    simp only [step]
    unfold disposeFn
    rfl
  refine ⟨?_, ?_, ?_, ?_, ?_, ?_⟩
  · rw [hd]; exact hspec.2.2.1
  · rw [hd]; exact hspec.2.2.2.1
  · rw [hd]
  · rw [hd]; exact hspec.2.2.2.2.2.2.1
  · rw [hd]; exact hspec.2.2.2.2.2.2.2.1
  · intro now2 ev hev
    refine step_noop_of_unsubscribed cfg now2 ?_ ev hev
    rw [hd]

theorem dispose_teardown_witness :
    (step sampleCfg 0 initState Event.dispose).marker = none ∧
    (step sampleCfg 0 initState Event.dispose).subscribed = false ∧
    (step sampleCfg 0 initState Event.dispose).debouncePending =
      initState.debouncePending :=
  ⟨(dispose_teardown sampleCfg 0 initState Reachable.init).1,
   (dispose_teardown sampleCfg 0 initState Reachable.init).2.2.1,
   (dispose_teardown sampleCfg 0 initState Reachable.init).2.2.2.1⟩

/-- C6: the toggle command on the active editor while HIDDEN starts a
fetch at the current text-cursor position when more than 100ms have
elapsed since the last hide (so a started fetch implies at least 100ms
have elapsed), and a toggle within the 100ms window leaves the instance
completely unchanged. -/
theorem toggle_respects_hidden_window (cfg : DatatipConfig) (now : Int)
    (s : EditorState) (cursorPosition : Point)
    (hsub : s.subscribed = true) :
    ((s.datatipState = DatatipState.HIDDEN ∧ now - s.lastHiddenTime > 100) →
      (step cfg now s (Event.toggle true cursorPosition)).datatipState =
        DatatipState.FETCHING ∧
      (step cfg now s (Event.toggle true cursorPosition)).pending =
        s.pending ++ [{ pos := cursorPosition, origin := FetchOrigin.cursor }]) ∧
    (now - s.lastHiddenTime ≤ 100 →
      step cfg now s (Event.toggle true cursorPosition) = s) := by
  constructor
  · rintro ⟨hh, ht⟩
    have heq : step cfg now s (Event.toggle true cursorPosition) =
        { s with datatipState := DatatipState.FETCHING,
                 pending := s.pending ++
                   [{ pos := cursorPosition, origin := FetchOrigin.cursor }] } := by
      simp only [step]
      rw [if_neg (by simp [hsub])]
      unfold toggleDatatip
      rw [if_neg (by simp), if_pos ⟨hh, ht⟩]
      exact startFetchingBegin_of_hidden now hh cursorPosition FetchOrigin.cursor
    rw [heq]
    exact ⟨rfl, rfl⟩
  · intro ht
    simp only [step]
    rw [if_neg (by simp [hsub])]
    unfold toggleDatatip
    rw [if_neg (by simp), if_neg (by rintro ⟨-, h2⟩; omega)]

theorem toggle_respects_hidden_window_witness :
    initState.subscribed = true ∧
    (initState.datatipState = DatatipState.HIDDEN ∧
      (200 : Int) - initState.lastHiddenTime > 100) ∧
    (step sampleCfg 200 initState
      (Event.toggle true { row := 3, column := 4 })).datatipState =
      DatatipState.FETCHING ∧
    (50 : Int) - initState.lastHiddenTime ≤ 100 ∧
    step sampleCfg 50 initState (Event.toggle true { row := 3, column := 4 }) =
      initState :=
  ⟨rfl, ⟨rfl, by decide⟩,
   ((toggle_respects_hidden_window sampleCfg 200 initState
      { row := 3, column := 4 } rfl).1 ⟨rfl, by decide⟩).1,
   by decide,
   (toggle_respects_hidden_window sampleCfg 50 initState
      { row := 3, column := 4 } rfl).2 (by decide)⟩

/-- C7: when no registered provider matches the scope, or every matching
provider returns no content, the fetch orchestrator resolves to null and
the completion handler puts the state machine into HIDDEN. -/
theorem no_content_resolves_null_and_hides (cfg : DatatipConfig) (now : Int)
    (s : EditorState) (f : FetchInfo) (cursorNow : Point)
    (h : filterProvidersByScopeName cfg.providers cfg.scopeName = [] ∨
      ∀ p ∈ filterProvidersByScopeName cfg.providers cfg.scopeName,
        p.datatip f.pos = none) :
    fetchDatatip cfg.scopeName f.pos cfg.providers = none ∧
    (fetchCompleteStep cfg now s f cursorNow).datatipState =
      DatatipState.HIDDEN := by
  have hnone : fetchDatatip cfg.scopeName f.pos cfg.providers = none := by
    rcases h with h | h
    · simp only [fetchDatatip]
      rw [h]
      simp
    · simp only [fetchDatatip]
      have hres : (filterProvidersByScopeName cfg.providers
          cfg.scopeName).filterMap (fetchItem f.pos) = [] := by
        rw [List.filterMap_eq_nil_iff]
        intro p hp
        unfold fetchItem
        rw [h p hp]
      rw [hres]
      simp
  refine ⟨hnone, ?_⟩
  unfold fetchCompleteStep
  rw [hnone]
  exact setState_datatipState now s DatatipState.HIDDEN

theorem no_content_resolves_null_and_hides_witness :
    filterProvidersByScopeName offScopeCfg.providers offScopeCfg.scopeName = [] ∧
    fetchDatatip offScopeCfg.scopeName ({ row := 0, column := 0 } : Point)
      offScopeCfg.providers = none ∧
    (fetchCompleteStep offScopeCfg 0 initState
      { pos := { row := 0, column := 0 }, origin := FetchOrigin.mouse }
      { row := 0, column := 0 }).datatipState = DatatipState.HIDDEN :=
  ⟨rfl,
   (no_content_resolves_null_and_hides offScopeCfg 0 initState
     { pos := { row := 0, column := 0 }, origin := FetchOrigin.mouse }
     { row := 0, column := 0 } (Or.inl rfl)).1,
   (no_content_resolves_null_and_hides offScopeCfg 0 initState
     { pos := { row := 0, column := 0 }, origin := FetchOrigin.mouse }
     { row := 0, column := 0 } (Or.inl rfl)).2⟩

/-- C8: `createPinnedDataTip` on the manager registry fails with the
"no datatip manager" error for an editor that has no tracked instance (so
no pinned tip is produced), and returns the pinned tip built by the
tracked editor's instance otherwise. -/
theorem createPinnedDataTip_requires_manager (m : DatatipManager)
    (range : Range) (pinnable : Option Bool) (editor : Nat) :
    (m.editorManagers.lookup editor = none →
      m.createPinnedDataTip range pinnable editor = Except.error
        "Trying to create a pinned data tip on an editor that has no datatip manager") ∧
    (∀ es : EditorState, m.editorManagers.lookup editor = some es →
      m.createPinnedDataTip range pinnable editor =
        Except.ok (DatatipManagerForEditor.createPinnedDataTip range pinnable)) := by
  constructor
  · intro h
    unfold DatatipManager.createPinnedDataTip
    rw [h]
  · intro es h
    unfold DatatipManager.createPinnedDataTip
    rw [h]

theorem createPinnedDataTip_requires_manager_witness :
    sampleManager.editorManagers.lookup 2 = none ∧
    sampleManager.createPinnedDataTip
        { start := { row := 0, column := 0 }, stop := { row := 0, column := 5 } }
        none 2 =
      Except.error
        "Trying to create a pinned data tip on an editor that has no datatip manager" ∧
    sampleManager.editorManagers.lookup 1 = some initState ∧
    sampleManager.createPinnedDataTip
        { start := { row := 0, column := 0 }, stop := { row := 0, column := 5 } }
        none 1 =
      Except.ok { range := { start := { row := 0, column := 0 },
                             stop := { row := 0, column := 5 } },
                  pinnable := none } :=
  ⟨rfl,
   (createPinnedDataTip_requires_manager sampleManager
     { start := { row := 0, column := 0 }, stop := { row := 0, column := 5 } }
     none 2).1 rfl,
   rfl,
   (createPinnedDataTip_requires_manager sampleManager
     { start := { row := 0, column := 0 }, stop := { row := 0, column := 5 } }
     none 1).2 initState rfl⟩

theorem fetchDatatip_eq_some (scopeName : String) (position : Point)
    (allProviders : List DatatipProvider)
    (hne : filterProvidersByScopeName allProviders scopeName ≠ [])
    (hres : (filterProvidersByScopeName allProviders scopeName).filterMap
      (fetchItem position) ≠ []) :
    fetchDatatip scopeName position allProviders =
      some { range := (((filterProvidersByScopeName allProviders
                scopeName).filterMap (fetchItem position)).map Prod.snd).foldl
              unionStep none,
             renderedProviders := ((filterProvidersByScopeName allProviders
                scopeName).filterMap (fetchItem position)).map Prod.fst } := by
  simp only [fetchDatatip]
  rw [if_neg (by simpa [List.length_eq_zero] using hne),
      if_neg (by simpa [List.length_eq_zero] using hres)]
  rw [List.foldl_map]

theorem mem_fetch_ranges_iff (position : Point) (ps : List DatatipProvider)
    (r : Range) :
    r ∈ (ps.filterMap (fetchItem position)).map Prod.snd ↔
      ∃ p ∈ ps, ∃ d, p.datatip position = some d ∧ d.range = r := by
  constructor
  · intro hr
    obtain ⟨pr, hpr, hpr2⟩ := List.mem_map.mp hr
    obtain ⟨p, hp, hfp⟩ := List.mem_filterMap.mp hpr
    cases hdt : p.datatip position with
    | none =>
      unfold fetchItem at hfp
      rw [hdt] at hfp
      exact absurd hfp (by simp)
    | some d =>
      unfold fetchItem at hfp
      rw [hdt] at hfp
      refine ⟨p, hp, d, hdt, ?_⟩
      rw [← hpr2, ← Option.some_inj.mp hfp]
  · rintro ⟨p, hp, d, hdt, hdr⟩
    refine List.mem_map.mpr ⟨(getProviderName p, d.range), ?_, hdr⟩
    refine List.mem_filterMap.mpr ⟨p, hp, ?_⟩
    unfold fetchItem
    rw [hdt]

/-- C4: when every scope-matching provider returns content with a range,
the combined range produced by `fetchDatatip` is the geometric union of
the individual ranges: it covers each provider's range and is contained in
every range covering all of them (the smallest covering range). -/
theorem combined_range_is_geometric_union (scopeName : String)
    (position : Point) (allProviders : List DatatipProvider)
    (hne : filterProvidersByScopeName allProviders scopeName ≠ [])
    (hall : ∀ p ∈ filterProvidersByScopeName allProviders scopeName,
      (p.datatip position).isSome = true) :
    ∃ result u,
      fetchDatatip scopeName position allProviders = some result ∧
      result.range = some u ∧
      (∀ p ∈ filterProvidersByScopeName allProviders scopeName, ∀ d,
        p.datatip position = some d → Range.containsRange u d.range = true) ∧
      (∀ v : Range,
        (∀ p ∈ filterProvidersByScopeName allProviders scopeName, ∀ d,
          p.datatip position = some d → Range.containsRange v d.range = true) →
        Range.containsRange v u = true) := by
  obtain ⟨p0, tl, hcons⟩ := List.exists_cons_of_ne_nil hne
  have hp0 : p0 ∈ filterProvidersByScopeName allProviders scopeName := by
    rw [hcons]
    exact List.mem_cons_self p0 tl
  obtain ⟨d0, hd0⟩ := Option.isSome_iff_exists.mp (hall p0 hp0)
  have hres : (filterProvidersByScopeName allProviders scopeName).filterMap
      (fetchItem position) ≠ [] := by
    rw [hcons]
    have hitem : fetchItem position p0 = some (getProviderName p0, d0.range) := by
      unfold fetchItem
      rw [hd0]
    simp [List.filterMap_cons, hitem]
  have hrs_ne : ((filterProvidersByScopeName allProviders scopeName).filterMap
      (fetchItem position)).map Prod.snd ≠ [] := by
    simpa [List.map_eq_nil_iff] using hres
  obtain ⟨r0, rest, hrscons⟩ := List.exists_cons_of_ne_nil hrs_ne
  obtain ⟨u, hfold, hu0, halls, hmin⟩ := unionStep_foldl rest r0
  have hfold2 : (((filterProvidersByScopeName allProviders
      scopeName).filterMap (fetchItem position)).map Prod.snd).foldl
        unionStep none = some u := by
    rw [hrscons, List.foldl_cons]
    exact hfold
  have hcover : ∀ r ∈ ((filterProvidersByScopeName allProviders
      scopeName).filterMap (fetchItem position)).map Prod.snd,
      Range.containsRange u r = true := by
    intro r hr
    rw [hrscons] at hr
    rcases List.mem_cons.mp hr with h | h
    · rw [h]
      exact hu0
    · exact halls r h
  refine ⟨_, u,
    fetchDatatip_eq_some scopeName position allProviders hne hres,
    hfold2, ?_, ?_⟩
  · intro p hp d hdt
    exact hcover d.range
      ((mem_fetch_ranges_iff position _ d.range).mpr ⟨p, hp, d, hdt, rfl⟩)
  · intro v hv
    have hvall : ∀ r ∈ ((filterProvidersByScopeName allProviders
        scopeName).filterMap (fetchItem position)).map Prod.snd,
        Range.containsRange v r = true := by
      intro r hr
      obtain ⟨p, hp, d, hdt, hdr⟩ := (mem_fetch_ranges_iff position _ r).mp hr
      have hc := hv p hp d hdt
      rwa [hdr] at hc
    refine hmin v (hvall r0 (by rw [hrscons]; exact List.mem_cons_self r0 rest)) ?_
    intro r hrr
    exact hvall r (by rw [hrscons]; exact List.mem_cons_of_mem r0 hrr)

theorem combined_range_is_geometric_union_witness :
    fetchDatatip "source.js" { row := 5, column := 2 }
        [witProviderA, witProviderB] =
      some { range := some { start := { row := 5, column := 0 },
                             stop := { row := 5, column := 10 } },
             renderedProviders := ["a", "b"] } ∧
    (∃ result u,
      fetchDatatip "source.js" { row := 5, column := 2 }
        [witProviderA, witProviderB] = some result ∧
      result.range = some u ∧
      (∀ p ∈ filterProvidersByScopeName [witProviderA, witProviderB]
          "source.js", ∀ d,
        p.datatip { row := 5, column := 2 } = some d →
          Range.containsRange u d.range = true) ∧
      (∀ v : Range,
        (∀ p ∈ filterProvidersByScopeName [witProviderA, witProviderB]
            "source.js", ∀ d,
          p.datatip { row := 5, column := 2 } = some d →
            Range.containsRange v d.range = true) →
        Range.containsRange v u = true)) :=
  ⟨by decide,
   combined_range_is_geometric_union "source.js" { row := 5, column := 2 }
     [witProviderA, witProviderB]
     (by
       rw [show filterProvidersByScopeName [witProviderA, witProviderB]
           "source.js" = [witProviderA, witProviderB] from rfl]
       simp)
     (by
       rw [show filterProvidersByScopeName [witProviderA, witProviderB]
           "source.js" = [witProviderA, witProviderB] from rfl]
       intro p hp
       rcases List.mem_cons.mp hp with h | h
       · rw [h]
         rfl
       · rcases List.mem_cons.mp h with h2 | h2
         · rw [h2]
           rfl
         · exact absurd h2 (List.not_mem_nil p))⟩

end NuclideDatatip
